import Mathlib

/-!
Verification of the FrameTimeline component of
services/surfaceflinger/FrameTimeline/FrameTimeline.cpp.

The definitions below are a shallow embedding of the C++ source: machine
times (nsecs_t) become Int, the jank bitmask (int32_t of distinct bits)
becomes Nat with bitwise or, fatal aborts become Option, and the mutex
protected mutable objects become explicit state passing.
-/

/-- Timestamps in nanoseconds, the nsecs_t of the source (int64_t). -/
abbrev Nsecs := Int

/-- The TimelineItem triple of start, end and present timestamps.
Unset fields are zero. -/
structure TimelineItem where
  startTime : Nsecs := 0
  endTime : Nsecs := 0
  presentTime : Nsecs := 0
deriving DecidableEq, Repr

/-- PredictionState from the FrameTimeline header: Valid, Expired, or
NoPrediction (named None in the source). -/
inductive PredictionState where
  | Valid
  | Expired
  | NoPrediction
deriving DecidableEq, Repr

/-- SurfaceFrame::PresentState. -/
inductive PresentState where
  | Presented
  | Dropped
  | Unknown
deriving DecidableEq, Repr

/-- FramePresentMetadata from the FrameTimeline header. -/
inductive FramePresentMetadata where
  | OnTimePresent
  | LatePresent
  | EarlyPresent
  | UnknownPresent
deriving DecidableEq, Repr

/-- FrameReadyMetadata from the FrameTimeline header. -/
inductive FrameReadyMetadata where
  | OnTimeFinish
  | LateFinish
  | UnknownFinish
deriving DecidableEq, Repr

/-- FrameStartMetadata from the FrameTimeline header. -/
inductive FrameStartMetadata where
  | OnTimeStart
  | LateStart
  | EarlyStart
  | UnknownStart
deriving DecidableEq, Repr

namespace JankType

/-- Modelled from the spec: JankType is a bitmask over causes; the numeric
single-bit values come from the gui JankInfo header, which is not under
src. All that matters for the claims is that the bits are distinct. -/
def NoJank : Nat := 0x0

def DisplayHAL : Nat := 0x1

def SurfaceFlingerCpuDeadlineMissed : Nat := 0x2

def SurfaceFlingerGpuDeadlineMissed : Nat := 0x4

def AppDeadlineMissed : Nat := 0x8

def PredictionError : Nat := 0x10

def SurfaceFlingerScheduling : Nat := 0x20

def BufferStuffing : Nat := 0x40

def Unknown : Nat := 0x80

end JankType

/-- JankClassificationThresholds from the FrameTimeline header: the three
threshold durations used by the classifiers. -/
structure JankClassificationThresholds where
  presentThreshold : Nsecs
  deadlineThreshold : Nsecs
  startThreshold : Nsecs
deriving DecidableEq, Repr

/-- The Fps type is used by this file only through getPeriodNsecs, so it is
modelled by that period. -/
structure Fps where
  getPeriodNsecs : Nsecs
deriving DecidableEq, Repr

/-- Modelled from the spec: the metrics sink record handed to
TimeStats::incrementJankyFrames, carrying refresh rate, chosen layer rate,
owner uid, layer name, jank causes and the deltas. -/
structure JankyFramesInfo where
  refreshRate : Fps
  renderRate : Option Fps
  uid : Int
  layerName : String
  jankType : Nat
  displayDeadlineDelta : Nsecs
  displayPresentDelta : Nsecs
  appDeadlineDelta : Nsecs
deriving DecidableEq, Repr

/-- Largest nsecs_t value, std::numeric_limits of int64_t. -/
def kNsecsMax : Nsecs := 9223372036854775807

/-- Embedding of getMinTime (FrameTimeline.cpp lines 251 to 272). Note the
source line under the presentTime guard takes actuals.endTime. -/
def getMinTime (predictionState : PredictionState) (predictions actuals : TimelineItem) :
    Nsecs :=
  let minTime := kNsecsMax
  let minTime := if predictionState = PredictionState.Valid then
      min minTime predictions.startTime else minTime
  let minTime := if actuals.startTime ≠ 0 then min minTime actuals.startTime else minTime
  let minTime := if actuals.endTime ≠ 0 then min minTime actuals.endTime else minTime
  let minTime := if actuals.presentTime ≠ 0 then min minTime actuals.endTime else minTime
  minTime

/-- Modelled from the spec: the smallest set timestamp among the predictions
and the actuals, where the actual present time itself participates in the
minimum. This is the stated behavior of getMinTime; compare with the
embedding above. -/
def getMinTimeSpec (predictionState : PredictionState) (predictions actuals : TimelineItem) :
    Nsecs :=
  let minTime := kNsecsMax
  let minTime := if predictionState = PredictionState.Valid then
      min minTime predictions.startTime else minTime
  let minTime := if actuals.startTime ≠ 0 then min minTime actuals.startTime else minTime
  let minTime := if actuals.endTime ≠ 0 then min minTime actuals.endTime else minTime
  let minTime := if actuals.presentTime ≠ 0 then min minTime actuals.presentTime else minTime
  minTime

/-- The mutable state of a SurfaceFrame (FrameTimeline.cpp lines 278 to 297
and the member list of the header). -/
structure SurfaceFrame where
  mToken : Int
  mOwnerPid : Int
  mOwnerUid : Int
  mLayerName : String
  mDebugName : String
  mPresentState : PresentState
  mPredictionState : PredictionState
  mPredictions : TimelineItem
  mActuals : TimelineItem
  mActualQueueTime : Nsecs
  mLastLatchTime : Nsecs
  mRenderRate : Option Fps
  mJankType : Nat
  mFramePresentMetadata : FramePresentMetadata
  mFrameReadyMetadata : FrameReadyMetadata
  mJankClassificationThresholds : JankClassificationThresholds
deriving DecidableEq, Repr

/-- SurfaceFrame::setPresentState (lines 313 to 321). The
LOG_ALWAYS_FATAL_IF abort is modelled as returning none; the successful
path stores the present state and the last latch time. -/
def SurfaceFrame.setPresentState (sf : SurfaceFrame) (presentState : PresentState)
    (lastLatchTime : Nsecs) : Option SurfaceFrame :=
  if sf.mPresentState ≠ PresentState.Unknown then
    none
  else
    some { sf with mPresentState := presentState, mLastLatchTime := lastLatchTime }

/-- SurfaceFrame::setActualQueueTime (lines 304 to 307). -/
def SurfaceFrame.setActualQueueTime (sf : SurfaceFrame) (actualQueueTime : Nsecs) :
    SurfaceFrame :=
  { sf with mActualQueueTime := actualQueueTime }

/-- SurfaceFrame::setAcquireFenceTime (lines 308 to 311). -/
def SurfaceFrame.setAcquireFenceTime (sf : SurfaceFrame) (acquireFenceTime : Nsecs) :
    SurfaceFrame :=
  { sf with mActuals := { sf.mActuals with endTime := max acquireFenceTime sf.mActualQueueTime } }

/-- SurfaceFrame::onPresent (lines 402 to 501): the surface level jank
classifier. Returns the updated record together with the list of metrics
observations sent to TimeStats::incrementJankyFrames. -/
def SurfaceFrame.onPresent (sf : SurfaceFrame) (presentTime : Nsecs)
    (displayFrameJankType : Nat) (refreshRate : Fps)
    (displayDeadlineDelta displayPresentDelta : Nsecs) :
    SurfaceFrame × List JankyFramesInfo :=
  if sf.mPresentState ≠ PresentState.Presented then
    (sf, [])
  else
    let sf := { sf with mActuals := { sf.mActuals with presentTime := presentTime } }
    if sf.mPredictionState = PredictionState.NoPrediction then
      (sf, [])
    else if sf.mPredictionState = PredictionState.Expired then
      let sf := { sf with mJankType := JankType.Unknown,
                          mFramePresentMetadata := FramePresentMetadata.UnknownPresent,
                          mFrameReadyMetadata := FrameReadyMetadata.UnknownFinish }
      let kAppDeadlineDelta : Nsecs := -1
      (sf, [{ refreshRate := refreshRate, renderRate := sf.mRenderRate, uid := sf.mOwnerUid,
              layerName := sf.mLayerName, jankType := sf.mJankType,
              displayDeadlineDelta := displayDeadlineDelta,
              displayPresentDelta := displayPresentDelta,
              appDeadlineDelta := kAppDeadlineDelta }])
    else
      let presentDelta := sf.mActuals.presentTime - sf.mPredictions.presentTime
      let deadlineDelta := sf.mActuals.endTime - sf.mPredictions.endTime
      let deltaToVsync := |presentDelta| % refreshRate.getPeriodNsecs
      let sf := { sf with mFrameReadyMetadata :=
        if deadlineDelta > sf.mJankClassificationThresholds.deadlineThreshold then
          FrameReadyMetadata.LateFinish
        else
          FrameReadyMetadata.OnTimeFinish }
      let sf := { sf with mFramePresentMetadata :=
        if |presentDelta| > sf.mJankClassificationThresholds.presentThreshold then
          (if presentDelta > 0 then FramePresentMetadata.LatePresent
           else FramePresentMetadata.EarlyPresent)
        else
          FramePresentMetadata.OnTimePresent }
      let sf :=
        if sf.mFramePresentMetadata = FramePresentMetadata.OnTimePresent then
          { sf with mJankType := JankType.NoJank }
        else if sf.mFramePresentMetadata = FramePresentMetadata.EarlyPresent then
          if sf.mFrameReadyMetadata = FrameReadyMetadata.OnTimeFinish then
            if deltaToVsync < sf.mJankClassificationThresholds.presentThreshold ∨
               deltaToVsync ≥ refreshRate.getPeriodNsecs -
                 sf.mJankClassificationThresholds.presentThreshold then
              { sf with mJankType := JankType.SurfaceFlingerScheduling }
            else
              { sf with mJankType := JankType.PredictionError }
          else if sf.mFrameReadyMetadata = FrameReadyMetadata.LateFinish then
            { sf with mJankType := JankType.Unknown }
          else
            sf
        else
          let sf :=
            if sf.mLastLatchTime ≠ 0 ∧ sf.mPredictions.endTime ≤ sf.mLastLatchTime then
              { sf with mJankType := sf.mJankType ||| JankType.BufferStuffing }
            else
              sf
          if sf.mFrameReadyMetadata = FrameReadyMetadata.OnTimeFinish then
            if displayFrameJankType ≠ JankType.NoJank then
              { sf with mJankType := sf.mJankType ||| displayFrameJankType }
            else if deltaToVsync < sf.mJankClassificationThresholds.presentThreshold ∨
                    deltaToVsync ≥ refreshRate.getPeriodNsecs -
                      sf.mJankClassificationThresholds.presentThreshold then
              { sf with mJankType := sf.mJankType ||| JankType.SurfaceFlingerScheduling }
            else
              { sf with mJankType := sf.mJankType ||| JankType.PredictionError }
          else if sf.mFrameReadyMetadata = FrameReadyMetadata.LateFinish then
            if displayFrameJankType = JankType.NoJank then
              { sf with mJankType := sf.mJankType ||| JankType.AppDeadlineMissed }
            else
              { sf with mJankType := sf.mJankType ||| displayFrameJankType }
          else
            sf
      (sf, [{ refreshRate := refreshRate, renderRate := sf.mRenderRate, uid := sf.mOwnerUid,
              layerName := sf.mLayerName, jankType := sf.mJankType,
              displayDeadlineDelta := displayDeadlineDelta,
              displayPresentDelta := displayPresentDelta,
              appDeadlineDelta := deadlineDelta }])

/-- The state of a FrameTimeline DisplayFrame (header member list and
constructor at lines 685 to 694). -/
structure DisplayFrame where
  mToken : Int
  mRefreshRate : Fps
  mPredictionState : PredictionState
  mSurfaceFlingerPredictions : TimelineItem
  mSurfaceFlingerActuals : TimelineItem
  mJankType : Nat
  mFramePresentMetadata : FramePresentMetadata
  mFrameReadyMetadata : FrameReadyMetadata
  mFrameStartMetadata : FrameStartMetadata
  mSurfaceFrames : List SurfaceFrame
  mJankClassificationThresholds : JankClassificationThresholds
deriving DecidableEq, Repr

/-- Modelled from the spec: a freshly constructed DisplayFrame. The header
with the member initializers is not under src; the fields default to the
zero and unknown values, with no prediction and an empty child list. -/
def DisplayFrame.freshFrame (thresholds : JankClassificationThresholds) : DisplayFrame where
  mToken := -1
  mRefreshRate := ⟨0⟩
  mPredictionState := PredictionState.NoPrediction
  mSurfaceFlingerPredictions := {}
  mSurfaceFlingerActuals := {}
  mJankType := JankType.NoJank
  mFramePresentMetadata := FramePresentMetadata.UnknownPresent
  mFrameReadyMetadata := FrameReadyMetadata.UnknownFinish
  mFrameStartMetadata := FrameStartMetadata.UnknownStart
  mSurfaceFrames := []
  mJankClassificationThresholds := thresholds

/-- DisplayFrame::addSurfaceFrame (lines 719 to 721). -/
def DisplayFrame.addSurfaceFrame (df : DisplayFrame) (surfaceFrame : SurfaceFrame) :
    DisplayFrame :=
  { df with mSurfaceFrames := df.mSurfaceFrames ++ [surfaceFrame] }

/-- DisplayFrame::onSfWakeUp (lines 723 to 735). -/
def DisplayFrame.onSfWakeUp (df : DisplayFrame) (token : Int) (refreshRate : Fps)
    (predictions : Option TimelineItem) (wakeUpTime : Nsecs) : DisplayFrame :=
  let df := { df with mToken := token, mRefreshRate := refreshRate }
  let df :=
    match predictions with
    | none => { df with mPredictionState := PredictionState.Expired }
    | some p => { df with mPredictionState := PredictionState.Valid,
                          mSurfaceFlingerPredictions := p }
  { df with mSurfaceFlingerActuals := { df.mSurfaceFlingerActuals with startTime := wakeUpTime } }

/-- DisplayFrame::setActualEndTime (lines 747 to 749). -/
def DisplayFrame.setActualEndTime (df : DisplayFrame) (actualEndTime : Nsecs) : DisplayFrame :=
  { df with mSurfaceFlingerActuals := { df.mSurfaceFlingerActuals with endTime := actualEndTime } }

/-- DisplayFrame::onPresent (lines 751 to 837): the display level jank
classifier, followed by the cascade into every child SurfaceFrame. Returns
the updated display record and the metrics observations the children
emitted. -/
def DisplayFrame.onPresent (df : DisplayFrame) (signalTime : Nsecs) :
    DisplayFrame × List JankyFramesInfo :=
  let df := { df with mSurfaceFlingerActuals :=
    { df.mSurfaceFlingerActuals with presentTime := signalTime } }
  let presentDelta :=
    df.mSurfaceFlingerActuals.presentTime - df.mSurfaceFlingerPredictions.presentTime
  let deadlineDelta :=
    df.mSurfaceFlingerActuals.endTime - df.mSurfaceFlingerPredictions.endTime
  let deltaToVsync := |presentDelta| % df.mRefreshRate.getPeriodNsecs
  let df := { df with mFramePresentMetadata :=
    if |presentDelta| > df.mJankClassificationThresholds.presentThreshold then
      (if presentDelta > 0 then FramePresentMetadata.LatePresent
       else FramePresentMetadata.EarlyPresent)
    else
      FramePresentMetadata.OnTimePresent }
  let df := { df with mFrameReadyMetadata :=
    if df.mSurfaceFlingerActuals.endTime - df.mSurfaceFlingerPredictions.endTime >
        df.mJankClassificationThresholds.deadlineThreshold then
      FrameReadyMetadata.LateFinish
    else
      FrameReadyMetadata.OnTimeFinish }
  let df :=
    if |df.mSurfaceFlingerActuals.startTime - df.mSurfaceFlingerPredictions.startTime| >
        df.mJankClassificationThresholds.startThreshold then
      { df with mFrameStartMetadata :=
        if df.mSurfaceFlingerActuals.startTime > df.mSurfaceFlingerPredictions.startTime then
          FrameStartMetadata.LateStart
        else
          FrameStartMetadata.EarlyStart }
    else
      df
  let df :=
    if df.mFramePresentMetadata ≠ FramePresentMetadata.OnTimePresent then
      if df.mFramePresentMetadata = FramePresentMetadata.EarlyPresent then
        if df.mFrameReadyMetadata = FrameReadyMetadata.OnTimeFinish then
          if deltaToVsync < df.mJankClassificationThresholds.presentThreshold ∨
             deltaToVsync ≥ df.mRefreshRate.getPeriodNsecs -
               df.mJankClassificationThresholds.presentThreshold then
            { df with mJankType := JankType.SurfaceFlingerScheduling }
          else
            { df with mJankType := JankType.PredictionError }
        else if df.mFrameReadyMetadata = FrameReadyMetadata.LateFinish then
          { df with mJankType := JankType.SurfaceFlingerScheduling }
        else
          { df with mJankType := JankType.Unknown }
      else if df.mFramePresentMetadata = FramePresentMetadata.LatePresent then
        if df.mFrameReadyMetadata = FrameReadyMetadata.OnTimeFinish then
          if deltaToVsync < df.mJankClassificationThresholds.presentThreshold ∨
             deltaToVsync ≥ df.mRefreshRate.getPeriodNsecs -
               df.mJankClassificationThresholds.presentThreshold then
            { df with mJankType := JankType.DisplayHAL }
          else
            { df with mJankType := JankType.PredictionError }
        else if df.mFrameReadyMetadata = FrameReadyMetadata.LateFinish then
          { df with mJankType := JankType.SurfaceFlingerCpuDeadlineMissed }
        else
          { df with mJankType := JankType.Unknown }
      else
        { df with mJankType := JankType.Unknown }
    else
      df
  let childResults := df.mSurfaceFrames.map fun surfaceFrame =>
    surfaceFrame.onPresent signalTime df.mJankType df.mRefreshRate deadlineDelta deltaToVsync
  ({ df with mSurfaceFrames := childResults.map Prod.fst },
   childResults.flatMap Prod.snd)

/-- The per token value stored by the TokenManager: the issue timestamp and
the predictions (the struct stored in mPredictions in the header). -/
structure TokenManagerPrediction where
  timestamp : Nsecs
  predictions : TimelineItem
deriving DecidableEq, Repr

/-- The state of impl::TokenManager: the next token to hand out and the
token keyed map of predictions. The std::map ordered by token is modelled
as an association list sorted by key through mapInsert. -/
structure TokenManager where
  mCurrentToken : Int
  mPredictions : List (Int × TokenManagerPrediction)
deriving DecidableEq, Repr

/-- Insertion into the token keyed std::map, keeping the entries ordered by
token and replacing an existing binding. -/
def mapInsert (key : Int) (value : TokenManagerPrediction) :
    List (Int × TokenManagerPrediction) → List (Int × TokenManagerPrediction)
  | [] => [(key, value)]
  | entry :: rest =>
    if key < entry.1 then (key, value) :: entry :: rest
    else if key = entry.1 then (key, value) :: rest
    else entry :: mapInsert key value rest

/-- Modelled from the spec: the retention window of the token ledger is a
fixed duration; kMaxRetentionTime in the header (not under src) is 120ms in
nanoseconds. -/
def kMaxRetentionTime : Nsecs := 120000000

/-- TokenManager::flushTokens (lines 625 to 635): erase entries older than
the retention window from the front of the map and stop at the first entry
still within the window. -/
def flushTokens (flushTime : Nsecs) :
    List (Int × TokenManagerPrediction) → List (Int × TokenManagerPrediction)
  | [] => []
  | entry :: rest =>
    if flushTime - entry.2.timestamp ≥ kMaxRetentionTime then
      flushTokens flushTime rest
    else
      entry :: rest

/-- TokenManager::generateTokenForPredictions (lines 607 to 614). The two
systemTime reads are modelled by the single parameter now. Returns the
assigned token and the new state. -/
def TokenManager.generateTokenForPredictions (tm : TokenManager)
    (predictions : TimelineItem) (now : Nsecs) : Int × TokenManager :=
  let assignedToken := tm.mCurrentToken
  let predictionsMap := mapInsert assignedToken ⟨now, predictions⟩ tm.mPredictions
  (assignedToken,
   { mCurrentToken := tm.mCurrentToken + 1,
     mPredictions := flushTokens now predictionsMap })

/-- TokenManager::getPredictionsForToken (lines 616 to 623): a pure lookup
that performs no flushing and does not depend on the lookup time. -/
def TokenManager.getPredictionsForToken (tm : TokenManager) (token : Int) :
    Option TimelineItem :=
  match tm.mPredictions.find? (fun entry => entry.1 == token) with
  | some entry => some entry.2.predictions
  | none => none

/-- Run a sequence of issue operations, each given as a pair of the issue
time and the predicted triple. -/
def TokenManager.runIssues (tm : TokenManager) (ops : List (Nsecs × TimelineItem)) :
    TokenManager :=
  ops.foldl (fun state op => (state.generateTokenForPredictions op.2 op.1).2) tm

/-- The state invariant of the TokenManager map: keys strictly increase
along the list and every key is below the next token to assign. It holds
for the initial state and is preserved by every issue. -/
def TokenManager.Inv (tm : TokenManager) : Prop :=
  tm.mPredictions.Pairwise (fun a b => a.1 < b.1) ∧
    ∀ entry ∈ tm.mPredictions, entry.1 < tm.mCurrentToken

/-- The resolution state of a present fence as this file observes it: the
fence can be invalid, still pending, or signaled at a time. -/
inductive FenceStatus where
  | invalid
  | pending
  | signaled (signalTime : Nsecs)
deriving DecidableEq, Repr

/-- FrameTimeline::flushPendingPresentFences (lines 918 to 937). The index
and erase loop of the source keeps an entry only when its fence is still
pending, classifies and drops an entry whose fence has signaled, and drops
an invalid entry without classification; the recursion below performs the
same scan. Returns the remaining pending queue and the display records
classified during the scan, in scan order. -/
def flushPendingPresentFences :
    List (FenceStatus × DisplayFrame) →
      List (FenceStatus × DisplayFrame) × List DisplayFrame
  | [] => ([], [])
  | (fence, displayFrame) :: rest =>
    match fence with
    | FenceStatus.pending =>
      let result := flushPendingPresentFences rest
      ((fence, displayFrame) :: result.1, result.2)
    | FenceStatus.invalid =>
      flushPendingPresentFences rest
    | FenceStatus.signaled signalTime =>
      let classified := (displayFrame.onPresent signalTime).1
      let result := flushPendingPresentFences rest
      (result.1, classified :: result.2)

/-- The state of impl::FrameTimeline that the history and queue operations
touch: the bounded display frame history, the pending present fence queue,
the current display frame and the maximum history size. -/
structure FrameTimeline where
  mMaxDisplayFrames : Nat
  mDisplayFrames : List DisplayFrame
  mPendingPresentFences : List (FenceStatus × DisplayFrame)
  mCurrentDisplayFrame : DisplayFrame
  mJankClassificationThresholds : JankClassificationThresholds
deriving DecidableEq, Repr

/-- The while loop of FrameTimeline::finalizeCurrentDisplayFrame (lines 940
to 943): pop the front of the history while it holds at least
maxDisplayFrames entries. -/
def popFrontWhileFull (maxDisplayFrames : Nat) : List DisplayFrame → List DisplayFrame
  | [] => []
  | frame :: rest =>
    if rest.length + 1 ≥ maxDisplayFrames then
      popFrontWhileFull maxDisplayFrames rest
    else
      frame :: rest

/-- FrameTimeline::finalizeCurrentDisplayFrame (lines 939 to 948): trim the
history, append the current display frame, and start a fresh one. -/
def FrameTimeline.finalizeCurrentDisplayFrame (ft : FrameTimeline) : FrameTimeline :=
  { ft with
    mDisplayFrames :=
      popFrontWhileFull ft.mMaxDisplayFrames ft.mDisplayFrames ++ [ft.mCurrentDisplayFrame],
    mCurrentDisplayFrame := DisplayFrame.freshFrame ft.mJankClassificationThresholds }

/-- FrameTimeline::setMaxDisplayFrames (lines 1049 to 1056): clear the
history and the pending fence queue and store the new maximum. -/
def FrameTimeline.setMaxDisplayFrames (ft : FrameTimeline) (size : Nat) : FrameTimeline :=
  { ft with
    mDisplayFrames := [],
    mPendingPresentFences := [],
    mMaxDisplayFrames := size }

/-- Thresholds for the concrete examples: 2ns present threshold, 0ns
deadline threshold, 2ns start threshold (the same shape as the defaults of
the header, scaled down). -/
def exThresholds : JankClassificationThresholds := ⟨2, 0, 2⟩

/-- A concrete presented surface frame with valid predictions, used by the
witnesses: predicted triple (0, 10, 20), actual end of work 11. -/
def exSurfaceFrame : SurfaceFrame where
  mToken := 1
  mOwnerPid := 10
  mOwnerUid := 100
  mLayerName := "layer"
  mDebugName := "layer"
  mPresentState := PresentState.Presented
  mPredictionState := PredictionState.Valid
  mPredictions := ⟨0, 10, 20⟩
  mActuals := ⟨0, 11, 0⟩
  mActualQueueTime := 0
  mLastLatchTime := 0
  mRenderRate := none
  mJankType := JankType.NoJank
  mFramePresentMetadata := FramePresentMetadata.UnknownPresent
  mFrameReadyMetadata := FrameReadyMetadata.UnknownFinish
  mJankClassificationThresholds := exThresholds

/-- A concrete display frame with valid predictions (0, 10, 20), actual end
of work 15 and a refresh period of 16ns. -/
def exDisplayFrame : DisplayFrame where
  mToken := 5
  mRefreshRate := ⟨16⟩
  mPredictionState := PredictionState.Valid
  mSurfaceFlingerPredictions := ⟨0, 10, 20⟩
  mSurfaceFlingerActuals := ⟨0, 15, 0⟩
  mJankType := JankType.NoJank
  mFramePresentMetadata := FramePresentMetadata.UnknownPresent
  mFrameReadyMetadata := FrameReadyMetadata.UnknownFinish
  mFrameStartMetadata := FrameStartMetadata.UnknownStart
  mSurfaceFrames := []
  mJankClassificationThresholds := exThresholds

/-- A second concrete display frame, distinguishable from the first. -/
def exDisplayFrameB : DisplayFrame := { exDisplayFrame with mToken := 6 }

/-- C7: SurfaceFrame::setPresentState aborts fatally (returns none in the
model) exactly when the present state of the record is already something
other than Unknown; on a fresh record it succeeds and stores the given
present state and last latch time. -/
theorem setPresentState_fatal_iff (sf : SurfaceFrame) (presentState : PresentState)
    (lastLatchTime : Nsecs) :
    (sf.setPresentState presentState lastLatchTime = none ↔
      sf.mPresentState ≠ PresentState.Unknown) ∧
    sf.setPresentState presentState lastLatchTime =
      (if sf.mPresentState = PresentState.Unknown then
        some { sf with mPresentState := presentState, mLastLatchTime := lastLatchTime }
       else none) := by
  constructor
  · unfold SurfaceFrame.setPresentState
    split <;> simp_all
  · unfold SurfaceFrame.setPresentState
    split <;> simp_all

/-- C9: a surface frame whose present state is not Presented is returned
from SurfaceFrame::onPresent unchanged, with no metrics observation
emitted. -/
theorem onPresent_not_presented_noop (sf : SurfaceFrame) (presentTime : Nsecs)
    (displayFrameJankType : Nat) (refreshRate : Fps)
    (displayDeadlineDelta displayPresentDelta : Nsecs)
    (h : sf.mPresentState ≠ PresentState.Presented) :
    sf.onPresent presentTime displayFrameJankType refreshRate
      displayDeadlineDelta displayPresentDelta = (sf, []) := by
  unfold SurfaceFrame.onPresent
  simp [h]

/-- Witness for C9 at a concrete dropped frame. -/
theorem onPresent_not_presented_noop_witness :
    ({ exSurfaceFrame with mPresentState := PresentState.Dropped }.onPresent 26
      JankType.NoJank ⟨16⟩ 0 0) =
      ({ exSurfaceFrame with mPresentState := PresentState.Dropped }, []) :=
  onPresent_not_presented_noop _ 26 JankType.NoJank ⟨16⟩ 0 0 (by decide)

/-- C10: FrameTimeline::setMaxDisplayFrames empties both the display frame
history and the pending present fence queue and stores the new maximum; a
subsequent flush of the pending queue classifies nothing, so the discarded
records are never classified or added to history. -/
theorem setMaxDisplayFrames_clears (ft : FrameTimeline) (size : Nat) :
    (ft.setMaxDisplayFrames size).mDisplayFrames = [] ∧
    (ft.setMaxDisplayFrames size).mPendingPresentFences = [] ∧
    (ft.setMaxDisplayFrames size).mMaxDisplayFrames = size ∧
    flushPendingPresentFences (ft.setMaxDisplayFrames size).mPendingPresentFences = ([], []) := by
  refine ⟨rfl, rfl, rfl, rfl⟩

/-- C4: code bug in getMinTime. With valid predictions (10, 11, 12) and
actuals (0, 0, 5), the source returns 0 because the branch guarded by a set
actual present time takes actuals.endTime (which is unset, 0) instead of
actuals.presentTime; the smallest set timestamp is 5. This contradicts the
comment of the function itself. -/
theorem getMinTime_presentTime_bug :
    getMinTime PredictionState.Valid ⟨10, 11, 12⟩ ⟨0, 0, 5⟩ = 0 ∧
    getMinTimeSpec PredictionState.Valid ⟨10, 11, 12⟩ ⟨0, 0, 5⟩ = 5 := by
  constructor <;> decide

/-- C1 counterexample: lookups do not check the token age. A token issued
at time 0 is still returned by a lookup performed at time
kMaxRetentionTime, when its age equals the retention window, because
TokenManager::getPredictionsForToken never flushes and its result does not
depend on the lookup time; only a later issue would have evicted the entry. -/
theorem tokenLookup_aged_counterexample :
    (((TokenManager.mk 0 []).generateTokenForPredictions ⟨1, 2, 3⟩ 0).2.getPredictionsForToken
        0 = some ⟨1, 2, 3⟩) ∧
    ¬(kMaxRetentionTime - 0 < kMaxRetentionTime) := by
  constructor <;> decide

/-- C2 counterexample: a display frame that presents early (signal 10
against a predicted present of 20) and finishes late (actual end 15 against
a predicted end of 10) is classified SurfaceFlingerScheduling, not Unknown,
by DisplayFrame::onPresent. -/
theorem displayFrame_earlyLate_counterexample :
    ((exDisplayFrame.onPresent 10).1.mFramePresentMetadata =
        FramePresentMetadata.EarlyPresent) ∧
    ((exDisplayFrame.onPresent 10).1.mFrameReadyMetadata = FrameReadyMetadata.LateFinish) ∧
    (exDisplayFrame.onPresent 10).1.mJankType ≠ JankType.Unknown ∧
    (exDisplayFrame.onPresent 10).1.mJankType = JankType.SurfaceFlingerScheduling := by
  refine ⟨by decide, by decide, by decide, by decide⟩

/-- C3 counterexample: with a pending fence at the front of the queue and a
signaled fence behind it, the flush classifies the later display frame and
removes it while the earlier record is still pending, so a record later in
the queue is classified while an earlier one is unresolved. -/
theorem flushPending_outOfOrder_counterexample :
    (flushPendingPresentFences
        [(FenceStatus.pending, exDisplayFrame),
         (FenceStatus.signaled 10, exDisplayFrameB)]).1 =
      [(FenceStatus.pending, exDisplayFrame)] ∧
    (flushPendingPresentFences
        [(FenceStatus.pending, exDisplayFrame),
         (FenceStatus.signaled 10, exDisplayFrameB)]).2 =
      [(exDisplayFrameB.onPresent 10).1] := by
  refine ⟨rfl, rfl⟩

/-- C6: a surface frame with valid predictions whose present lands within
the present threshold of the prediction is classified OnTimePresent with
JankType None, whatever the finish metadata or the display verdict. -/
theorem surfaceFrame_onTimePresent_noJank (sf : SurfaceFrame) (presentTime : Nsecs)
    (displayFrameJankType : Nat) (refreshRate : Fps)
    (displayDeadlineDelta displayPresentDelta : Nsecs)
    (hps : sf.mPresentState = PresentState.Presented)
    (hvalid : sf.mPredictionState = PredictionState.Valid)
    (hontime : |presentTime - sf.mPredictions.presentTime| ≤
      sf.mJankClassificationThresholds.presentThreshold)
    (hperiod : 0 < refreshRate.getPeriodNsecs) :
    ((sf.onPresent presentTime displayFrameJankType refreshRate
        displayDeadlineDelta displayPresentDelta).1.mJankType = JankType.NoJank) ∧
    (sf.onPresent presentTime displayFrameJankType refreshRate
        displayDeadlineDelta displayPresentDelta).1.mFramePresentMetadata =
      FramePresentMetadata.OnTimePresent := by
  have hnot : ¬(|presentTime - sf.mPredictions.presentTime| >
      sf.mJankClassificationThresholds.presentThreshold) := not_lt.mpr hontime
  unfold SurfaceFrame.onPresent
  simp [hps, hvalid, hnot]

/-- Witness for C6: present at 21 against a prediction of 20 with threshold
2, under a janky display verdict, still yields JankType None. -/
theorem surfaceFrame_onTimePresent_noJank_witness :
    ((exSurfaceFrame.onPresent 21 JankType.DisplayHAL ⟨16⟩ 0 0).1.mJankType =
      JankType.NoJank) ∧
    (exSurfaceFrame.onPresent 21 JankType.DisplayHAL ⟨16⟩ 0 0).1.mFramePresentMetadata =
      FramePresentMetadata.OnTimePresent :=
  surfaceFrame_onTimePresent_noJank exSurfaceFrame 21 JankType.DisplayHAL ⟨16⟩ 0 0
    (by decide) (by decide) (by decide) (by decide)

/-- C5: the LatePresent branch of the surface classifier. With valid
predictions and a present later than the threshold, BufferStuffing is OR-ed
in when a last latch time is known and the predicted end is not after it;
then an on time finish takes the display causes when the display record is
janky and otherwise the vsync factor test picks SurfaceFlingerScheduling or
PredictionError, while a late finish takes AppDeadlineMissed when the
display record is clean and otherwise the display causes. -/
theorem surfaceFrame_latePresent_classification (sf : SurfaceFrame) (presentTime : Nsecs)
    (displayFrameJankType : Nat) (refreshRate : Fps)
    (displayDeadlineDelta displayPresentDelta : Nsecs)
    (hps : sf.mPresentState = PresentState.Presented)
    (hvalid : sf.mPredictionState = PredictionState.Valid)
    (hth : 0 ≤ sf.mJankClassificationThresholds.presentThreshold)
    (hlate : presentTime - sf.mPredictions.presentTime >
      sf.mJankClassificationThresholds.presentThreshold) :
    ((sf.onPresent presentTime displayFrameJankType refreshRate
        displayDeadlineDelta displayPresentDelta).1.mFramePresentMetadata =
        FramePresentMetadata.LatePresent) ∧
    (sf.onPresent presentTime displayFrameJankType refreshRate
        displayDeadlineDelta displayPresentDelta).1.mJankType =
      (sf.mJankType |||
        (if sf.mLastLatchTime ≠ 0 ∧ sf.mPredictions.endTime ≤ sf.mLastLatchTime then
          JankType.BufferStuffing else JankType.NoJank)) |||
        (if sf.mActuals.endTime - sf.mPredictions.endTime >
            sf.mJankClassificationThresholds.deadlineThreshold then
          (if displayFrameJankType = JankType.NoJank then JankType.AppDeadlineMissed
           else displayFrameJankType)
         else
          (if displayFrameJankType ≠ JankType.NoJank then displayFrameJankType
           else if |presentTime - sf.mPredictions.presentTime| % refreshRate.getPeriodNsecs <
                     sf.mJankClassificationThresholds.presentThreshold ∨
                   |presentTime - sf.mPredictions.presentTime| % refreshRate.getPeriodNsecs ≥
                     refreshRate.getPeriodNsecs -
                       sf.mJankClassificationThresholds.presentThreshold
                then JankType.SurfaceFlingerScheduling
                else JankType.PredictionError)) := by
  have hpos : presentTime - sf.mPredictions.presentTime > 0 := lt_of_le_of_lt hth hlate
  have habs : |presentTime - sf.mPredictions.presentTime| >
      sf.mJankClassificationThresholds.presentThreshold := by
    rw [abs_of_pos hpos]; exact hlate
  by_cases hstuff : sf.mLastLatchTime ≠ 0 ∧ sf.mPredictions.endTime ≤ sf.mLastLatchTime <;>
  by_cases hready : sf.mActuals.endTime - sf.mPredictions.endTime >
      sf.mJankClassificationThresholds.deadlineThreshold <;>
  by_cases hdj : displayFrameJankType = 0 <;>
  by_cases hvs : |presentTime - sf.mPredictions.presentTime| % refreshRate.getPeriodNsecs <
      sf.mJankClassificationThresholds.presentThreshold ∨
    refreshRate.getPeriodNsecs ≤
      |presentTime - sf.mPredictions.presentTime| % refreshRate.getPeriodNsecs +
        sf.mJankClassificationThresholds.presentThreshold <;>
  · unfold SurfaceFrame.onPresent
    simp [hps, hvalid, habs, hpos, hstuff, hready, hdj, hvs, JankType.NoJank, Nat.or_zero]

/-- Witness for C5: present at 26 against a prediction of 20, a late finish
(11 against 10 with a zero deadline threshold) and a clean display record
yield AppDeadlineMissed. -/
theorem surfaceFrame_latePresent_classification_witness :
    ((exSurfaceFrame.onPresent 26 JankType.NoJank ⟨16⟩ 0 0).1.mFramePresentMetadata =
        FramePresentMetadata.LatePresent) ∧
    (exSurfaceFrame.onPresent 26 JankType.NoJank ⟨16⟩ 0 0).1.mJankType =
      JankType.AppDeadlineMissed := by
  have h := surfaceFrame_latePresent_classification exSurfaceFrame 26 JankType.NoJank ⟨16⟩ 0 0
    (by decide) (by decide) (by decide) (by decide)
  exact ⟨h.1, h.2.trans (by decide)⟩

/-- C2 amended: the display classifier handles EarlyPresent with LateFinish
by setting SurfaceFlingerScheduling (the compositor scheduling cause), not
Unknown as the surface classifier does for that pair. -/
theorem displayFrame_earlyLate_scheduling (df : DisplayFrame) (signalTime : Nsecs)
    (hth : 0 ≤ df.mJankClassificationThresholds.presentThreshold)
    (hearly : signalTime - df.mSurfaceFlingerPredictions.presentTime <
      -df.mJankClassificationThresholds.presentThreshold)
    (hlate : df.mSurfaceFlingerActuals.endTime - df.mSurfaceFlingerPredictions.endTime >
      df.mJankClassificationThresholds.deadlineThreshold) :
    ((df.onPresent signalTime).1.mFramePresentMetadata = FramePresentMetadata.EarlyPresent) ∧
    ((df.onPresent signalTime).1.mFrameReadyMetadata = FrameReadyMetadata.LateFinish) ∧
    (df.onPresent signalTime).1.mJankType = JankType.SurfaceFlingerScheduling := by
  have hneg : signalTime - df.mSurfaceFlingerPredictions.presentTime < 0 :=
    lt_of_lt_of_le hearly (by linarith)
  have habs : |signalTime - df.mSurfaceFlingerPredictions.presentTime| >
      df.mJankClassificationThresholds.presentThreshold := by
    rw [abs_of_neg hneg]; linarith
  have hnotpos : ¬(signalTime - df.mSurfaceFlingerPredictions.presentTime > 0) := by linarith
  by_cases hstart : |df.mSurfaceFlingerActuals.startTime -
      df.mSurfaceFlingerPredictions.startTime| >
    df.mJankClassificationThresholds.startThreshold <;>
  · unfold DisplayFrame.onPresent
    simp [habs, hnotpos, hlate, hstart]

/-- Witness for the amended C2 at the concrete display frame: signal 10
against a predicted present of 20 and an actual end 15 against a predicted
end of 10. -/
theorem displayFrame_earlyLate_scheduling_witness :
    ((exDisplayFrame.onPresent 10).1.mFramePresentMetadata =
        FramePresentMetadata.EarlyPresent) ∧
    ((exDisplayFrame.onPresent 10).1.mFrameReadyMetadata = FrameReadyMetadata.LateFinish) ∧
    (exDisplayFrame.onPresent 10).1.mJankType = JankType.SurfaceFlingerScheduling :=
  displayFrame_earlyLate_scheduling exDisplayFrame 10 (by decide) (by decide) (by decide)

/-- True exactly when the fence has not resolved yet. -/
def FenceStatus.isPending : FenceStatus → Bool
  | FenceStatus.pending => true
  | _ => false

/-- The classification a flush performs on one queue entry: a signaled
fence classifies its display frame with the signal time, anything else
classifies nothing. -/
def classifyIfSignaled (entry : FenceStatus × DisplayFrame) : Option DisplayFrame :=
  match entry.1 with
  | FenceStatus.signaled signalTime => some ((entry.2.onPresent signalTime).1)
  | _ => none

/-- C3 amended: the flush scans the pending queue in submission order; the
entries that remain are exactly the still pending ones, in their original
order, and the classified records are exactly the signaled ones, classified
in submission (scan) order. The queue is not advanced only from the front:
a signaled entry is classified and removed wherever it sits, even behind a
pending one, as the recorded counterexample shows. -/
theorem flushPending_order (pendingFences : List (FenceStatus × DisplayFrame)) :
    (flushPendingPresentFences pendingFences).1 =
      pendingFences.filter (fun entry => entry.1.isPending) ∧
    (flushPendingPresentFences pendingFences).2 =
      pendingFences.filterMap classifyIfSignaled := by
  induction pendingFences with
  | nil => exact ⟨rfl, rfl⟩
  | cons head rest ih =>
    obtain ⟨fence, displayFrame⟩ := head
    cases fence <;>
      simp [flushPendingPresentFences, FenceStatus.isPending, classifyIfSignaled,
        List.filter, List.filterMap, ih.1, ih.2]

/-- The trim loop leaves a history shorter than the maximum untouched. -/
theorem popFrontWhileFull_of_lt (maxDisplayFrames : Nat) (frames : List DisplayFrame)
    (h : frames.length < maxDisplayFrames) :
    popFrontWhileFull maxDisplayFrames frames = frames := by
  cases frames with
  | nil => rfl
  | cons frame rest =>
    unfold popFrontWhileFull
    rw [if_neg]
    simp at h
    omega

/-- The trim loop pops exactly one frame from a history that is at the
maximum. -/
theorem popFrontWhileFull_of_eq (maxDisplayFrames : Nat) (frames : List DisplayFrame)
    (hpos : 0 < maxDisplayFrames) (h : frames.length = maxDisplayFrames) :
    popFrontWhileFull maxDisplayFrames frames = frames.tail := by
  cases frames with
  | nil => simp at h; omega
  | cons frame rest =>
    unfold popFrontWhileFull
    rw [if_pos]
    · exact popFrontWhileFull_of_lt _ _ (by simp at h; omega)
    · simp at h; omega

/-- Folding the trim and append step of finalizeCurrentDisplayFrame over a
sequence of records keeps exactly the last maxDisplayFrames of them, in
order. -/
theorem finalizeHistory_foldl (d : Nat) (hd : 0 < d) (records : List DisplayFrame) :
    records.foldl (fun history record => popFrontWhileFull d history ++ [record]) [] =
      records.drop (records.length - d) := by
  induction records using List.reverseRecOn with
  | nil => simp
  | append_singleton rs r ih =>
    rw [List.foldl_append, List.foldl_cons, List.foldl_nil, ih]
    by_cases hk : rs.length < d
    · have h0 : rs.length - d = 0 := by omega
      have h1 : (rs ++ [r]).length - d = 0 := by simp; omega
      rw [h0, h1, List.drop_zero, List.drop_zero,
        popFrontWhileFull_of_lt d rs (by omega)]
    · have hlen : (rs.drop (rs.length - d)).length = d := by
        rw [List.length_drop]; omega
      rw [popFrontWhileFull_of_eq d _ hd hlen, List.tail_drop]
      have h2 : (rs ++ [r]).length - d = rs.length - d + 1 := by simp; omega
      rw [h2, List.drop_append_of_le_length (by omega)]

/-- Running a sequence of finalizations on the FrameTimeline state evolves
the history by the trim and append step and leaves the maximum unchanged. -/
theorem finalizeRun_displayFrames (records : List DisplayFrame) :
    ∀ ft : FrameTimeline,
      ((records.foldl (fun state record =>
          FrameTimeline.finalizeCurrentDisplayFrame
            { state with mCurrentDisplayFrame := record }) ft).mDisplayFrames =
        records.foldl
          (fun history record => popFrontWhileFull ft.mMaxDisplayFrames history ++ [record])
          ft.mDisplayFrames) ∧
      (records.foldl (fun state record =>
          FrameTimeline.finalizeCurrentDisplayFrame
            { state with mCurrentDisplayFrame := record }) ft).mMaxDisplayFrames =
        ft.mMaxDisplayFrames := by
  induction records with
  | nil => exact fun ft => ⟨rfl, rfl⟩
  | cons record rest ih =>
    intro ft
    have h := ih (FrameTimeline.finalizeCurrentDisplayFrame
      { ft with mCurrentDisplayFrame := record })
    simpa [FrameTimeline.finalizeCurrentDisplayFrame] using h

/-- C8: the display frame history is a fixed size FIFO. Starting from an
empty history with a positive maximum, finalizing a sequence of display
frames leaves exactly the last maxDisplayFrames of them, in their original
order. (A maximum of zero makes the pop loop of the source underflow an
empty deque, which is undefined behavior in C++, so it is excluded.) -/
theorem displayFrame_history_fifo (records : List DisplayFrame) (ft : FrameTimeline)
    (hd : 0 < ft.mMaxDisplayFrames) (hempty : ft.mDisplayFrames = []) :
    (records.foldl (fun state record =>
        FrameTimeline.finalizeCurrentDisplayFrame
          { state with mCurrentDisplayFrame := record }) ft).mDisplayFrames =
      records.drop (records.length - ft.mMaxDisplayFrames) := by
  rw [(finalizeRun_displayFrames records ft).1, hempty]
  exact finalizeHistory_foldl ft.mMaxDisplayFrames hd records

/-- A display frame distinguished by its token, for the history witness. -/
def exFrameAt (token : Int) : DisplayFrame := { exDisplayFrame with mToken := token }

/-- A FrameTimeline state with history depth 3, an empty history and an
empty pending queue. -/
def exFrameTimeline : FrameTimeline where
  mMaxDisplayFrames := 3
  mDisplayFrames := []
  mPendingPresentFences := []
  mCurrentDisplayFrame := DisplayFrame.freshFrame exThresholds
  mJankClassificationThresholds := exThresholds

/-- Witness for C8: history depth 3 and five finalized display frames leave
exactly the last three, in order. -/
theorem displayFrame_history_fifo_witness :
    ([exFrameAt 1, exFrameAt 2, exFrameAt 3, exFrameAt 4, exFrameAt 5].foldl
        (fun state record =>
          FrameTimeline.finalizeCurrentDisplayFrame
            { state with mCurrentDisplayFrame := record }) exFrameTimeline).mDisplayFrames =
      [exFrameAt 3, exFrameAt 4, exFrameAt 5] := by
  have h := displayFrame_history_fifo
    [exFrameAt 1, exFrameAt 2, exFrameAt 3, exFrameAt 4, exFrameAt 5]
    exFrameTimeline (by decide) rfl
  exact h.trans (by decide)

/-- Flushing only drops entries from the front of the token map. -/
theorem flushTokens_sublist (flushTime : Nsecs) (l : List (Int × TokenManagerPrediction)) :
    (flushTokens flushTime l).Sublist l := by
  induction l with
  | nil => simp [flushTokens]
  | cons entry rest ih =>
    unfold flushTokens
    split
    · exact ih.trans (List.sublist_cons_self entry rest)
    · exact List.Sublist.refl _

/-- Eviction never removes a token whose age at flush time is below the
retention window. -/
theorem mem_flushTokens (flushTime : Nsecs) (l : List (Int × TokenManagerPrediction))
    (entry : Int × TokenManagerPrediction) (hmem : entry ∈ l)
    (hyoung : flushTime - entry.2.timestamp < kMaxRetentionTime) :
    entry ∈ flushTokens flushTime l := by
  induction l with
  | nil => simp at hmem
  | cons head rest ih =>
    unfold flushTokens
    split
    · rcases List.mem_cons.mp hmem with heq | hmem2
      · subst heq
        rename_i hcond
        exact absurd hyoung (not_lt.mpr hcond)
      · exact ih hmem2
    · exact hmem

/-- Inserting a fresh key keeps every entry with a different key. -/
theorem mem_mapInsert_of_ne (key : Int) (value : TokenManagerPrediction)
    (l : List (Int × TokenManagerPrediction)) (entry : Int × TokenManagerPrediction)
    (hmem : entry ∈ l) (hne : entry.1 ≠ key) :
    entry ∈ mapInsert key value l := by
  induction l with
  | nil => simp at hmem
  | cons head rest ih =>
    unfold mapInsert
    split
    · exact List.mem_cons_of_mem _ hmem
    · split
      · rename_i hnlt heqk
        rcases List.mem_cons.mp hmem with heq | hmem2
        · subst heq; exact absurd heqk.symm hne
        · exact List.mem_cons_of_mem _ hmem2
      · rcases List.mem_cons.mp hmem with heq | hmem2
        · subst heq; exact List.mem_cons_self _ _
        · exact List.mem_cons_of_mem _ (ih hmem2)

/-- Inserting a key above every existing key appends at the back, which is
where the ordered map places the monotonically increasing tokens. -/
theorem mapInsert_eq_append (key : Int) (value : TokenManagerPrediction)
    (l : List (Int × TokenManagerPrediction)) (hbound : ∀ entry ∈ l, entry.1 < key) :
    mapInsert key value l = l ++ [(key, value)] := by
  induction l with
  | nil => rfl
  | cons head rest ih =>
    have hhead := hbound head (List.mem_cons_self _ _)
    unfold mapInsert
    rw [if_neg (by omega), if_neg (by omega)]
    rw [ih (fun entry hm => hbound entry (List.mem_cons_of_mem _ hm))]
    rfl

/-- The TokenManager invariant is preserved by issuing a token. -/
theorem inv_generateToken (tm : TokenManager) (predictions : TimelineItem) (now : Nsecs)
    (hinv : tm.Inv) : (tm.generateTokenForPredictions predictions now).2.Inv := by
  obtain ⟨hpair, hbound⟩ := hinv
  unfold TokenManager.generateTokenForPredictions
  constructor
  · refine List.Pairwise.sublist (flushTokens_sublist _ _) ?_
    rw [mapInsert_eq_append _ _ _ hbound]
    rw [List.pairwise_append]
    refine ⟨hpair, List.pairwise_singleton _ _, ?_⟩
    intro a ha b hb
    rw [List.mem_singleton.mp hb]
    exact hbound a ha
  · intro entry hmem
    have hmem2 := (flushTokens_sublist _ _).subset hmem
    rw [mapInsert_eq_append _ _ _ hbound] at hmem2
    rcases List.mem_append.mp hmem2 with h | h
    · have := hbound entry h
      simp only
      omega
    · rw [List.mem_singleton.mp h]
      simp only
      omega

/-- On a map with strictly increasing keys, find locates the entry of a
present key. -/
theorem find?_of_pairwise (l : List (Int × TokenManagerPrediction)) (tk : Int)
    (tp : TokenManagerPrediction) (hpair : l.Pairwise (fun a b => a.1 < b.1))
    (hmem : (tk, tp) ∈ l) :
    l.find? (fun entry => entry.1 == tk) = some (tk, tp) := by
  induction l with
  | nil => simp at hmem
  | cons head rest ih =>
    rcases List.mem_cons.mp hmem with heq | hmem2
    · rw [← heq]
      simp [List.find?_cons]
    · have hlt : head.1 < tk := (List.pairwise_cons.mp hpair).1 (tk, tp) hmem2
      rw [List.find?_cons]
      have hne : (head.1 == tk) = false := by
        simp
        exact ne_of_lt hlt
      rw [hne]
      exact ih (List.pairwise_cons.mp hpair).2 hmem2

/-- C1 amended: a token below the retention window is always found. If a
ledger satisfying the invariant holds a token issued at some timestamp, and
any sequence of further issues happens no later than the lookup time, then
as long as the token age at lookup time is below the retention window the
lookup returns its predictions. Eviction (which runs only inside an issue)
never removes a token younger than the window. The converse of the claimed
equivalence fails: the recorded counterexample shows a lookup returning the
predictions of a token that has already outlived the window, because lookup
itself never flushes. -/
theorem tokenLookup_young (tm : TokenManager) (tk : Int) (tp : TokenManagerPrediction)
    (ops : List (Nsecs × TimelineItem)) (lookupTime : Nsecs)
    (hinv : tm.Inv)
    (hmem : (tk, tp) ∈ tm.mPredictions)
    (hops : ∀ t ∈ ops.map Prod.fst, t ≤ lookupTime)
    (hyoung : lookupTime - tp.timestamp < kMaxRetentionTime) :
    (tm.runIssues ops).getPredictionsForToken tk = some tp.predictions := by
  induction ops generalizing tm with
  | nil =>
    unfold TokenManager.runIssues
    unfold TokenManager.getPredictionsForToken
    rw [List.foldl_nil, find?_of_pairwise tm.mPredictions tk tp hinv.1 hmem]
  | cons op rest ih =>
    have hinv2 := inv_generateToken tm op.2 op.1 hinv
    have hne : tk ≠ tm.mCurrentToken := ne_of_lt (hinv.2 (tk, tp) hmem)
    have hopt : op.1 ≤ lookupTime := hops op.1 (by simp)
    have hyoung2 : op.1 - tp.timestamp < kMaxRetentionTime := by linarith
    have hmem2 : (tk, tp) ∈ (tm.generateTokenForPredictions op.2 op.1).2.mPredictions := by
      unfold TokenManager.generateTokenForPredictions
      exact mem_flushTokens op.1 _ (tk, tp)
        (mem_mapInsert_of_ne tm.mCurrentToken ⟨op.1, op.2⟩ tm.mPredictions (tk, tp) hmem hne)
        hyoung2
    have hops2 : ∀ t ∈ rest.map Prod.fst, t ≤ lookupTime := by
      intro t ht
      exact hops t (by simp at ht ⊢; right; exact ht)
    have hrun : tm.runIssues (op :: rest) =
        ((tm.generateTokenForPredictions op.2 op.1).2).runIssues rest := by
      unfold TokenManager.runIssues
      rw [List.foldl_cons]
    rw [hrun]
    exact ih _ hinv2 hmem2 hops2

/-- Witness for the amended C1: a ledger holding token 0 issued at time 0,
a further issue at time 5, and a lookup at time 5 (age far below the 120ms
window) still finds the token. -/
theorem tokenLookup_young_witness :
    ((TokenManager.mk 1 [(0, ⟨0, ⟨1, 2, 3⟩⟩)]).runIssues
        [(5, ⟨4, 5, 6⟩)]).getPredictionsForToken 0 = some ⟨1, 2, 3⟩ :=
  tokenLookup_young (TokenManager.mk 1 [(0, ⟨0, ⟨1, 2, 3⟩⟩)]) 0 ⟨0, ⟨1, 2, 3⟩⟩
    [(5, ⟨4, 5, 6⟩)] 5
    ⟨by simp, by simp⟩ (by simp) (by simp) (by decide)
